import Mathlib

/-!
Shallow embedding of the time-series filter engine of `src/app.py`
(finance dashboard).  Dates are modelled as integers (ordinal day
values), prices and volumes as rationals; the IEEE special values that
pandas division can produce (infinities, NaN) are modelled by the
inductive `FVal`.  The two Flask routes (`dashboard` and `api_data`)
each contain an inline copy of the same filter pipeline; both copies
are embedded separately below.
-/

set_option allowUnsafeReducibility true in
attribute [semireducible] Rat.mul Rat.add Rat.sub Rat.inv

/-- One row of a ticker's DataFrame: the columns `Date, Open, High,
Low, Close, Volume` loaded by `load_data` in `src/app.py`. -/
structure Row where
  date : Int
  open_ : ℚ
  high : ℚ
  low : ℚ
  close : ℚ
  volume : ℚ
  deriving DecidableEq

/-- Value of the derived `Volume_Change_Pct` float column: pandas
`pct_change` yields NaN for the first row (and for `0/0`), `+inf` for a
positive numerator over zero, `-inf` for a negative one, and an
ordinary (here: rational) number otherwise. -/
inductive FVal where
  | nan
  | posInf
  | negInf
  | finite (q : ℚ)
  deriving DecidableEq

/-- The pandas float comparison `x >= t`: false for NaN, true for
`+inf`, false for `-inf`, the rational comparison otherwise. -/
def FVal.ge (x : FVal) (t : ℚ) : Bool :=
  match x with
  | .nan => false
  | .posInf => true
  | .negInf => false
  | .finite q => decide (t ≤ q)

/-- One step of `Series.pct_change` (times 100): pandas computes
`cur / prev - 1` in float arithmetic, so a zero `prev` yields an
infinity or NaN depending on the sign of `cur`. -/
def pctOne (prev cur : ℚ) : FVal :=
  if prev ≠ 0 then FVal.finite ((cur / prev - 1) * 100)
  else if 0 < cur then FVal.posInf
  else if cur < 0 then FVal.negInf
  else FVal.nan

/-- Tail of the `pct_change` column: each entry is `pctOne` of the
previous and the current volume. -/
def pctChangesAux (prev : ℚ) : List ℚ → List FVal
  | [] => []
  | v :: vs => pctOne prev v :: pctChangesAux v vs

/-- The full column `df['Volume'].pct_change() * 100` of `src/app.py`
line 65/222: NaN for the first row, `pctOne` for the following ones. -/
def pctChanges : List ℚ → List FVal
  | [] => []
  | v :: vs => FVal.nan :: pctChangesAux v vs

instance dateLeDec : DecidableRel (fun a b : Row => a.date ≤ b.date) :=
  fun a b => Int.decLe a.date b.date

instance dateLeTotal : IsTotal Row (fun a b : Row => a.date ≤ b.date) :=
  ⟨fun a b => Int.le_total a.date b.date⟩

instance dateLeTrans : IsTrans Row (fun a b : Row => a.date ≤ b.date) :=
  ⟨fun _ _ _ h1 h2 => le_trans h1 h2⟩

/-- Embedding of `df.sort_values('Date')` (`src/app.py` line 64/221).
pandas' default sort is an unstable quicksort, so the order among rows
with equal dates is unspecified there; dates are unique within a
series in this data set, so any comparison sort represents it.  An
insertion sort is used because it is structural and kernel-reducible. -/
def sortByDate (df : List Row) : List Row :=
  List.insertionSort (fun a b : Row => a.date ≤ b.date) df

/-- Typed filter parameters of one request, after Flask's
`request.args.get(..., type=float)` parsing (`src/app.py` lines
30-36 / 194-200): a field is `none` when the query parameter is absent
(or, for the float ones, failed to parse). -/
structure Params where
  start_date : Option Int := none
  end_date : Option Int := none
  min_volume : Option ℚ := none
  max_volume : Option ℚ := none
  min_price : Option ℚ := none
  max_price : Option ℚ := none
  volume_increase_threshold : Option ℚ := none
  deriving DecidableEq

/-- A date bound stage: `if start_date: df = df[df['Date'] >= ...]`
(`src/app.py` lines 44-47) -- applied whenever the parameter is
present, with no positivity test. -/
def condFilterDate (df : List Row) (o : Option Int) (pred : Int → Row → Bool) : List Row :=
  match o with
  | some d => df.filter (pred d)
  | none => df

/-- A volume/price bound stage: `if v is not None and v > 0: df = df[...]`
(`src/app.py` lines 50-59) -- applied only when the parameter is
present AND positive. -/
def condFilter (df : List Row) (o : Option ℚ) (pred : ℚ → Row → Bool) : List Row :=
  match o with
  | some v => if 0 < v then df.filter (pred v) else df
  | none => df

/-- Stages 3-5 of the pipeline (`src/app.py` lines 44-59): date range,
volume range, price range (against `Close`), in source order. -/
def rangeStages (df : List Row) (p : Params) : List Row :=
  condFilter
    (condFilter
      (condFilter
        (condFilter
          (condFilterDate
            (condFilterDate df p.start_date (fun d r => decide (d ≤ r.date)))
            p.end_date (fun d r => decide (r.date ≤ d)))
          p.min_volume (fun v r => decide (v ≤ r.volume)))
        p.max_volume (fun v r => decide (r.volume ≤ v)))
      p.min_price (fun v r => decide (v ≤ r.close)))
    p.max_price (fun v r => decide (r.close ≤ v))

/-- The surviving rows sorted by date, each paired with its
`Volume_Change_Pct` entry (`src/app.py` lines 64-65). -/
def thresholdAnnot (df : List Row) : List (Row × FVal) :=
  let s := sortByDate df
  s.zip (pctChanges (s.map Row.volume))

/-- The annotated rows kept by `df = df[df['Volume_Change_Pct'] >= t]`
(`src/app.py` line 68). -/
def thresholdStageAnnot (df : List Row) (t : ℚ) : List (Row × FVal) :=
  (thresholdAnnot df).filter (fun rc => rc.2.ge t)

/-- The rows kept by the volume-increase stage (`src/app.py` lines
62-68). -/
def thresholdStage (df : List Row) (t : ℚ) : List Row :=
  (thresholdStageAnnot df t).map Prod.fst

/-- The complete inline filter pipeline of the `dashboard` route
(`src/app.py` lines 44-68), on the copied rows of the selected
series. -/
def dashFilter (df0 : List Row) (p : Params) : List Row :=
  let df := rangeStages df0 p
  match p.volume_increase_threshold with
  | some t => if 0 < t then thresholdStage df t else df
  | none => df

/-- The complete inline filter pipeline of the `api_data` route
(`src/app.py` lines 206-223), transcribed from its own lines: the
source duplicates the dashboard pipeline verbatim. -/
def apiFilter (df0 : List Row) (p : Params) : List Row :=
  let df := rangeStages df0 p
  match p.volume_increase_threshold with
  | some t => if 0 < t then thresholdStage df t else df
  | none => df

/-- Digits of a numeral accumulated into a natural number; `none` as
soon as a non-digit character appears. -/
def digitsAux : List Char → Nat → Option Nat
  | [], acc => some acc
  | c :: cs, acc =>
    if c.isDigit then digitsAux cs (acc * 10 + (c.toNat - 48)) else none

/-- A non-empty all-digit character list read as a natural number. -/
def digitsOf : List Char → Option Nat
  | [] => none
  | l => digitsAux l 0

/-- Splits a character list at every occurrence of the separator
(an executable stand-in for `str.split`). -/
def splitCh (c : Char) : List Char → List (List Char)
  | [] => [[]]
  | a :: as =>
    let r := splitCh c as
    if a = c then [] :: r
    else
      match r with
      | [] => [[a]]
      | g :: gs => (a :: g) :: gs

/-- Modelled from the spec (`start_date`, `end_date` are "ISO date
strings"): `pd.to_datetime` applied to a request parameter.  pandas is
an external library; it parses an ISO `YYYY-MM-DD` string and raises a
`ParserError` on unparseable input, which this model renders as
`none`.  The returned integer is strictly monotone in (year, month,
day), which is all the engine's comparisons use. -/
def to_datetime (s : String) : Option Int :=
  match splitCh '-' s.toList with
  | [y, m, d] =>
    match digitsOf y, digitsOf m, digitsOf d with
    | some yn, some mn, some dn =>
      if 1 ≤ mn ∧ mn ≤ 12 ∧ 1 ≤ dn ∧ dn ≤ 31 then
        some ((yn : Int) * 372 + (mn : Int) * 31 + (dn : Int))
      else none
    | _, _, _ => none
  | _ => none

/-- An unsigned decimal literal (digits, optionally a dot and more
digits) read as a rational. -/
def parseUF (l : List Char) : Option ℚ :=
  match splitCh '.' l with
  | [ip] => (digitsOf ip).map (fun n => (n : ℚ))
  | [ip, fp] =>
    match digitsOf ip, digitsOf fp with
    | some n, some f => some ((n : ℚ) + (f : ℚ) / ((10 : ℚ) ^ fp.length))
    | _, _ => none
  | _ => none

/-- Modelled from the spec ("non-numeric volume bound ... fails to
parse"): Python `float()` on a request string, restricted to ordinary
signed decimal literals; `none` models the `ValueError` that Flask's
`type=float` conversion swallows. -/
def parseFloat (s : String) : Option ℚ :=
  match s.toList with
  | '-' :: rest => (parseUF rest).map (fun q => -q)
  | l => parseUF l

/-- Flask's `request.args.get(name, type=float)`: absent parameter or
failed conversion both give `None` (`src/app.py` lines 32-36). -/
def getFloat (o : Option String) : Option ℚ :=
  o.bind parseFloat

/-- The fixed fallback of `request.args.get('ticker', 'AAPL')`
(`src/app.py` lines 29 and 193). -/
def defaultTicker : String := "AAPL"

/-- The raw query parameters of one request, each `none` when absent
from the query string. -/
structure RawReq where
  ticker : Option String := none
  start_date : Option String := none
  end_date : Option String := none
  min_volume : Option String := none
  max_volume : Option String := none
  min_price : Option String := none
  max_price : Option String := none
  volume_increase_threshold : Option String := none
  deriving DecidableEq

/-- The module-level `data` dict of `src/app.py`: one loaded series per
ticker symbol, keys unique.  `selected_ticker in data` /
`data[selected_ticker]` is association-list lookup. -/
def lookupStore (store : List (String × List Row)) (t : String) : Option (List Row) :=
  (store.find? (fun e => e.1 == t)).map (fun e => e.2)

/-- Evaluation of one date parameter inside the filter block: `if
start_date: df = df[df['Date'] >= pd.to_datetime(start_date)]`.  An
absent or empty (falsy) string skips the filter; a non-empty string is
handed to `pd.to_datetime`, whose failure is an uncaught exception
(modelled as `Except.error`). -/
def parseDateParam (o : Option String) : Except Unit (Option Int) :=
  match o with
  | none => Except.ok none
  | some s =>
    if s = "" then Except.ok none
    else
      match to_datetime s with
      | some d => Except.ok (some d)
      | none => Except.error ()

/-- The typed parameter bundle a request denotes, given the outcome of
the two date parses. -/
def reqParams (req : RawReq) (sd ed : Option Int) : Params :=
  { start_date := sd
    end_date := ed
    min_volume := getFloat req.min_volume
    max_volume := getFloat req.max_volume
    min_price := getFloat req.min_price
    max_price := getFloat req.max_price
    volume_increase_threshold := getFloat req.volume_increase_threshold }

/-- What the `dashboard` route computes from the store: `filtered_data`
stays `None` both when the ticker is unknown and when every row is
filtered out (`src/app.py` lines 39, 72-78); the two cases are kept
apart here so that theorems can talk about each. -/
inductive DashResult where
  | notFound
  | empty
  | data (rows : List Row)
  deriving DecidableEq

/-- The JSON value `jsonify(filtered_data)` of the `api_data` route:
the initial empty dict `{}` when the ticker is unknown or no row
survives, else `df.to_dict('records')`, a list of row records (the
row's columns, including `Volume_Change_Pct` when it was added). -/
inductive ApiPayload where
  | emptyObj
  | records (rows : List Row)
  deriving DecidableEq

/-- The filtering part of the `dashboard` route (`src/app.py` lines
28-78): ticker defaulting, lookup, lazy date parsing, the inline
pipeline, and the empty test.  `Except.error` is an uncaught
`pd.to_datetime` exception (HTTP 500). -/
def dashboard_route (store : List (String × List Row)) (req : RawReq) : Except Unit DashResult :=
  let selected := req.ticker.getD defaultTicker
  match lookupStore store selected with
  | none => Except.ok DashResult.notFound
  | some df0 =>
    match parseDateParam req.start_date with
    | Except.error e => Except.error e
    | Except.ok sd =>
      match parseDateParam req.end_date with
      | Except.error e => Except.error e
      | Except.ok ed =>
        let df := dashFilter df0 (reqParams req sd ed)
        Except.ok (if df.isEmpty then DashResult.empty else DashResult.data df)

/-- The `api_data` route (`src/app.py` lines 190-228): same parameter
handling, its own copy of the pipeline, and `jsonify` with Flask's
default status 200 in every non-raising case. -/
def api_route (store : List (String × List Row)) (req : RawReq) : Except Unit (Nat × ApiPayload) :=
  let selected := req.ticker.getD defaultTicker
  match lookupStore store selected with
  | none => Except.ok (200, ApiPayload.emptyObj)
  | some df0 =>
    match parseDateParam req.start_date with
    | Except.error e => Except.error e
    | Except.ok sd =>
      match parseDateParam req.end_date with
      | Except.error e => Except.error e
      | Except.ok ed =>
        let df := apiFilter df0 (reqParams req sd ed)
        Except.ok (200, if df.isEmpty then ApiPayload.emptyObj else ApiPayload.records df)

/-- The spec's error taxonomy for one request against the API route:
requested symbol absent from the store (`UnknownTicker`), known symbol
with zero surviving rows (`EmptyResult`), or a non-empty result. -/
inductive Outcome where
  | unknownTicker
  | emptyResult
  | nonEmpty
  deriving DecidableEq

/-- Classifies a request by the spec's taxonomy, following the exact
branch structure of `api_data`. -/
def apiOutcome (store : List (String × List Row)) (req : RawReq) : Except Unit Outcome :=
  let selected := req.ticker.getD defaultTicker
  match lookupStore store selected with
  | none => Except.ok Outcome.unknownTicker
  | some df0 =>
    match parseDateParam req.start_date with
    | Except.error e => Except.error e
    | Except.ok sd =>
      match parseDateParam req.end_date with
      | Except.error e => Except.error e
      | Except.ok ed =>
        let df := apiFilter df0 (reqParams req sd ed)
        Except.ok (if df.isEmpty then Outcome.emptyResult else Outcome.nonEmpty)

/-- True when the request completed without an uncaught exception. -/
def isOkE {α : Type} : Except Unit α → Bool
  | Except.ok _ => true
  | Except.error _ => false

/-- The row set a caller sees from the dashboard route (no rows for
`notFound` and `empty`, which both render as an empty page). -/
def dashRowSet : Except Unit DashResult → Except Unit (List Row)
  | Except.error e => Except.error e
  | Except.ok DashResult.notFound => Except.ok []
  | Except.ok DashResult.empty => Except.ok []
  | Except.ok (DashResult.data l) => Except.ok l

/-- The row set a caller sees from the API route. -/
def apiRowSet : Except Unit (Nat × ApiPayload) → Except Unit (List Row)
  | Except.error e => Except.error e
  | Except.ok (_, ApiPayload.emptyObj) => Except.ok []
  | Except.ok (_, ApiPayload.records l) => Except.ok l

/-- The spec's scenario series: `[(d1,vol=100),(d2,vol=150),(d3,vol=90)]`. -/
def ex1r1 : Row := ⟨1, 0, 0, 0, 0, 100⟩

def ex1r2 : Row := ⟨2, 0, 0, 0, 0, 150⟩

def ex1r3 : Row := ⟨3, 0, 0, 0, 0, 90⟩

def ex1 : List Row := [ex1r1, ex1r2, ex1r3]

/-- Parameters with only the volume-increase threshold set, at 40%. -/
def p40 : Params := { volume_increase_threshold := some 40 }

example : dashFilter ex1 p40 = [ex1r2] := by decide

example : thresholdStageAnnot ex1 40 = [(ex1r2, FVal.finite 50)] := by decide

example : to_datetime (String.mk ['2','0','2','4','-','0','1','-','0','5']) = some 752964 := by decide

example : to_datetime (String.mk ['g','a','r','b','a','g','e']) = none := by decide

example : parseFloat (String.mk ['1','0','0']) = some 100 := by decide

example : parseFloat (String.mk ['1','.','5']) = some (3/2) := by decide

example : parseFloat (String.mk ['a','b','c']) = none := by decide

/-- Evaluation of a date-stage condition at one row. -/
def condDB (o : Option Int) (pred : Int → Bool) : Bool :=
  match o with
  | some d => pred d
  | none => true

/-- Evaluation of a volume/price-stage condition at one row: a bound
that is absent or not positive imposes nothing. -/
def condQB (o : Option ℚ) (pred : ℚ → Bool) : Bool :=
  match o with
  | some v => if 0 < v then pred v else true
  | none => true

/-- The conjunction of all six range-stage conditions at one row
(nested the way the stage chain composes). -/
def rangePred (p : Params) (r : Row) : Bool :=
  condQB p.max_price (fun v => decide (r.close ≤ v)) &&
  (condQB p.min_price (fun v => decide (v ≤ r.close)) &&
  (condQB p.max_volume (fun v => decide (r.volume ≤ v)) &&
  (condQB p.min_volume (fun v => decide (v ≤ r.volume)) &&
  (condDB p.end_date (fun d => decide (r.date ≤ d)) &&
  condDB p.start_date (fun d => decide (d ≤ r.date))))))

theorem condFilterDate_eq (df : List Row) (o : Option Int) (pred : Int → Row → Bool) :
    condFilterDate df o pred = df.filter (fun r => condDB o (fun d => pred d r)) := by
  cases o <;> simp [condFilterDate, condDB]

theorem condFilter_eq (df : List Row) (o : Option ℚ) (pred : ℚ → Row → Bool) :
    condFilter df o pred = df.filter (fun r => condQB o (fun v => pred v r)) := by
  cases o with
  | none => simp [condFilter, condQB]
  | some v =>
    by_cases h : 0 < v <;> simp [condFilter, condQB, h]

theorem rangeStages_eq (df : List Row) (p : Params) :
    rangeStages df p = df.filter (rangePred p) := by
  simp only [rangeStages, condFilterDate_eq, condFilter_eq, List.filter_filter]
  rfl

theorem rangeStages_idem (df : List Row) (p : Params) :
    rangeStages (rangeStages df p) p = rangeStages df p := by
  rw [rangeStages_eq, rangeStages_eq, List.filter_filter]
  exact List.filter_congr (fun x _ => Bool.and_self _)

theorem pctChangesAux_length (prev : ℚ) (vs : List ℚ) :
    (pctChangesAux prev vs).length = vs.length := by
  induction vs generalizing prev with
  | nil => rfl
  | cons v vs ih => simp [pctChangesAux, ih]

theorem pctChanges_length (vs : List ℚ) : (pctChanges vs).length = vs.length := by
  cases vs with
  | nil => rfl
  | cons v vs => simp [pctChanges, pctChangesAux_length]

theorem thresholdStage_sublist (df : List Row) (t : ℚ) :
    List.Sublist (thresholdStage df t) (sortByDate df) := by
  unfold thresholdStage thresholdStageAnnot thresholdAnnot
  have h1 : List.Sublist
      (((sortByDate df).zip
        (pctChanges ((sortByDate df).map Row.volume))).filter (fun rc => rc.2.ge t))
      ((sortByDate df).zip (pctChanges ((sortByDate df).map Row.volume))) :=
    List.filter_sublist _
  have h2 := h1.map Prod.fst
  rwa [List.map_fst_zip] at h2
  simp [pctChanges_length]

theorem thresholdStage_sorted (df : List Row) (t : ℚ) :
    List.Sorted (fun a b : Row => a.date ≤ b.date) (thresholdStage df t) :=
  List.Pairwise.sublist (thresholdStage_sublist df t)
    (List.sorted_insertionSort (fun a b : Row => a.date ≤ b.date) df)

theorem thresholdStage_subset (df : List Row) (t : ℚ) :
    ∀ r, r ∈ thresholdStage df t → r ∈ df := by
  intro r hr
  have hs := (thresholdStage_sublist df t).subset hr
  exact (List.perm_insertionSort (fun a b : Row => a.date ≤ b.date) df).mem_iff.mp hs

theorem mem_sortByDate (df : List Row) (r : Row) : r ∈ sortByDate df ↔ r ∈ df :=
  (List.perm_insertionSort (fun a b : Row => a.date ≤ b.date) df).mem_iff

/-- Lift of a defined-or-undefined change into the float column domain
(an undefined change is a NaN entry). -/
def optF : Option ℚ → FVal
  | some c => FVal.finite c
  | none => FVal.nan

/-- Follows the spec's words (§4.1 step 6b): the tail of
`volumeChangePct`, `(volume[i] - volume[i-1]) / volume[i-1] * 100`. -/
def specAux (prev : ℚ) : List ℚ → List (Option ℚ)
  | [] => []
  | v :: vs => some ((v - prev) / prev * 100) :: specAux v vs

/-- Follows the spec's words (§4.1 step 6b): `volumeChangePct[i]`
defined for `i > 0`, undefined for `i = 0`. -/
def specChanges : List ℚ → List (Option ℚ)
  | [] => []
  | v :: vs => none :: specAux v vs

/-- Follows the spec's words (§4.1 step 6): sort the surviving rows
ascending by date and retain exactly the rows whose change is defined
and ≥ the threshold, each with its change. -/
def spec_threshold (df : List Row) (t : ℚ) : List (Row × ℚ) :=
  ((sortByDate df).zip (specChanges ((sortByDate df).map Row.volume))).filterMap
    (fun rc =>
      match rc.2 with
      | some c => if t ≤ c then some (rc.1, c) else none
      | none => none)

theorem pctOne_eq_spec (prev cur : ℚ) (h : prev ≠ 0) :
    pctOne prev cur = FVal.finite ((cur - prev) / prev * 100) := by
  have e : (cur / prev - 1) * 100 = (cur - prev) / prev * 100 := by
    field_simp
  simp [pctOne, h, e]

theorem pctChangesAux_eq_spec (prev : ℚ) (vs : List ℚ) (hp : prev ≠ 0)
    (h : ∀ v ∈ vs, v ≠ 0) :
    pctChangesAux prev vs = (specAux prev vs).map optF := by
  induction vs generalizing prev with
  | nil => rfl
  | cons v vs ih =>
    simp only [pctChangesAux, specAux, List.map_cons, optF,
      pctOne_eq_spec prev v hp]
    exact congrArg _ (ih v (h v (by simp)) (fun w hw => h w (by simp [hw])))

theorem pctChanges_eq_spec (vs : List ℚ) (h : ∀ v ∈ vs, v ≠ 0) :
    pctChanges vs = (specChanges vs).map optF := by
  cases vs with
  | nil => rfl
  | cons v vs =>
    simp only [pctChanges, specChanges, List.map_cons, optF]
    exact congrArg _
      (pctChangesAux_eq_spec v vs (h v (by simp)) (fun w hw => h w (by simp [hw])))

theorem filter_zip_optF (t : ℚ) :
    ∀ (s : List Row) (cs : List (Option ℚ)),
    (s.zip (cs.map optF)).filter (fun rc => rc.2.ge t) =
      ((s.zip cs).filterMap (fun rc =>
        match rc.2 with
        | some c => if t ≤ c then some (rc.1, c) else none
        | none => none)).map (fun rc => (rc.1, FVal.finite rc.2))
  | [], cs => by simp
  | r :: s, [] => by simp
  | r :: s, c :: cs => by
    have IH := filter_zip_optF t s cs
    cases c with
    | none => exact IH
    | some q =>
      by_cases hq : t ≤ q
      · have e1 : ((r :: s).zip ((some q :: cs).map optF)).filter (fun rc => rc.2.ge t)
            = (r, FVal.finite q) :: (s.zip (cs.map optF)).filter (fun rc => rc.2.ge t) := by
          simp [optF, FVal.ge, List.filter_cons, hq]
        have e2 : (((r :: s).zip (some q :: cs)).filterMap (fun rc =>
              match rc.2 with
              | some c => if t ≤ c then some (rc.1, c) else none
              | none => none)).map (fun rc => (rc.1, FVal.finite rc.2))
            = (r, FVal.finite q) :: ((s.zip cs).filterMap (fun rc =>
                match rc.2 with
                | some c => if t ≤ c then some (rc.1, c) else none
                | none => none)).map (fun rc => (rc.1, FVal.finite rc.2)) := by
          simp [hq]
        rw [e1, e2, IH]
      · have e1 : ((r :: s).zip ((some q :: cs).map optF)).filter (fun rc => rc.2.ge t)
            = (s.zip (cs.map optF)).filter (fun rc => rc.2.ge t) := by
          simp [optF, FVal.ge, List.filter_cons, hq]
        have e2 : ((r :: s).zip (some q :: cs)).filterMap (fun rc =>
              match rc.2 with
              | some c => if t ≤ c then some (rc.1, c) else none
              | none => none)
            = (s.zip cs).filterMap (fun rc =>
                match rc.2 with
                | some c => if t ≤ c then some (rc.1, c) else none
                | none => none) := by
          simp [hq]
        rw [e1, e2, IH]

/-- C1: with the volume-increase threshold set, the engine sorts the
surviving rows ascending by date, computes
`volumeChangePct[i] = (volume[i] - volume[i-1]) / volume[i-1] * 100`
over that subset (undefined for the first row), and retains exactly
the rows whose change is defined and ≥ the threshold (for series whose
volumes are nonzero, so that the spec's formula is defined); in
particular, on `[(d1,100),(d2,150),(d3,90)]` with threshold 40 the
result is exactly `[(d2, 50.0)]`. -/
theorem C1_threshold_matches_spec :
    (∀ (df : List Row) (p : Params) (t : ℚ),
      p.volume_increase_threshold = some t → 0 < t →
      (∀ r ∈ df, r.volume ≠ 0) →
      dashFilter df p = (spec_threshold (rangeStages df p) t).map Prod.fst ∧
      thresholdStageAnnot (rangeStages df p) t =
        (spec_threshold (rangeStages df p) t).map (fun rc => (rc.1, FVal.finite rc.2))) ∧
    dashFilter ex1 p40 = [ex1r2] ∧
    thresholdStageAnnot ex1 40 = [(ex1r2, FVal.finite 50)] := by
  refine ⟨?_, by decide, by decide⟩
  intro df p t hthr ht hv
  have hsub : ∀ r ∈ rangeStages df p, r ∈ df := by
    intro r hr
    rw [rangeStages_eq] at hr
    exact List.mem_of_mem_filter hr
  have hannot : thresholdStageAnnot (rangeStages df p) t =
      (spec_threshold (rangeStages df p) t).map (fun rc => (rc.1, FVal.finite rc.2)) := by
    have hnz : ∀ v ∈ (sortByDate (rangeStages df p)).map Row.volume, v ≠ 0 := by
      intro v hvm
      obtain ⟨r, hr, rfl⟩ := List.mem_map.mp hvm
      exact hv r (hsub r ((mem_sortByDate _ r).mp hr))
    show ((sortByDate (rangeStages df p)).zip
        (pctChanges ((sortByDate (rangeStages df p)).map Row.volume))).filter
          (fun rc => rc.2.ge t) = _
    rw [pctChanges_eq_spec _ hnz]
    exact filter_zip_optF t _ _
  refine ⟨?_, hannot⟩
  have hdf : dashFilter df p = thresholdStage (rangeStages df p) t := by
    simp [dashFilter, hthr, ht]
  rw [hdf]
  unfold thresholdStage
  rw [hannot, List.map_map]
  rfl

/-- Witness for C1: the general part applied to the spec's scenario
series with threshold 40, whose hypotheses hold concretely. -/
theorem C1_threshold_matches_spec_witness :
    p40.volume_increase_threshold = some 40 ∧ (0 : ℚ) < 40 ∧
    (∀ r ∈ ex1, r.volume ≠ 0) ∧
    dashFilter ex1 p40 = (spec_threshold (rangeStages ex1 p40) 40).map Prod.fst :=
  ⟨rfl, by decide, by decide,
    (C1_threshold_matches_spec.1 ex1 p40 40 rfl (by decide) (by decide)).1⟩

/-- A series stored out of date order (the data model allows this:
rows are loaded in file order and are not guaranteed sorted). -/
def exUr1 : Row := ⟨2, 0, 0, 0, 0, 5⟩

def exUr2 : Row := ⟨1, 0, 0, 0, 0, 7⟩

def exU : List Row := [exUr1, exUr2]

/-- Criteria that leave the volume-increase threshold unset per the
source's policy: absent, or present but not positive. -/
def thrUnset (p : Params) : Prop :=
  match p.volume_increase_threshold with
  | none => True
  | some t => t ≤ 0

/-- A volume/price bound that the source treats as unset: absent, or
present but not positive. -/
def qUnset (o : Option ℚ) : Prop :=
  match o with
  | none => True
  | some v => v ≤ 0

theorem dashFilter_of_thrUnset (df : List Row) (p : Params) (hp : thrUnset p) :
    dashFilter df p = rangeStages df p := by
  unfold dashFilter
  cases hm : p.volume_increase_threshold with
  | none => simp
  | some t =>
    have ht : ¬ 0 < t := by
      unfold thrUnset at hp
      rw [hm] at hp
      exact not_lt.mpr hp
    simp [ht]

theorem condQB_unset (o : Option ℚ) (pred : ℚ → Bool) (h : qUnset o) :
    condQB o pred = true := by
  cases o with
  | none => rfl
  | some v =>
    unfold qUnset at h
    simp [condQB, not_lt.mpr h]

theorem dashFilter_subset_range (df : List Row) (p : Params) :
    ∀ r, r ∈ dashFilter df p → r ∈ rangeStages df p := by
  intro r hr
  cases hm : p.volume_increase_threshold with
  | none =>
    have h : dashFilter df p = rangeStages df p := by simp [dashFilter, hm]
    rw [h] at hr
    exact hr
  | some t =>
    by_cases ht : 0 < t
    · have h : dashFilter df p = thresholdStage (rangeStages df p) t := by
        simp [dashFilter, hm, ht]
      rw [h] at hr
      exact thresholdStage_subset _ t r hr
    · have h : dashFilter df p = rangeStages df p := by simp [dashFilter, hm, ht]
      rw [h] at hr
      exact hr

/-- C2 fails on the code: with every bound unset, no stage of the
pipeline runs, so the rows come back in stored order; on a series
stored out of date order the result is not sorted ascending by date. -/
theorem C2_counterexample :
    dashFilter exU ({} : Params) = exU ∧
    ¬ List.Sorted (fun a b : Row => a.date ≤ b.date) (dashFilter exU ({} : Params)) := by
  exact ⟨rfl, by decide⟩

/-- C2 amended: with all bounds unset the engine returns the series
unchanged in content AND in stored order (the identity); the result is
sorted ascending by date only when the volume-increase stage ran (that
stage sorts), not regardless of it. -/
theorem C2_amended :
    (∀ df : List Row, dashFilter df ({} : Params) = df) ∧
    (∀ (df : List Row) (p : Params) (t : ℚ),
      p.volume_increase_threshold = some t → 0 < t →
      List.Sorted (fun a b : Row => a.date ≤ b.date) (dashFilter df p)) := by
  constructor
  · intro df
    rfl
  · intro df p t hthr ht
    have h : dashFilter df p = thresholdStage (rangeStages df p) t := by
      simp [dashFilter, hthr, ht]
    rw [h]
    exact thresholdStage_sorted _ t

/-- Witness for C2's amended theorem at concrete inputs. -/
theorem C2_amended_witness :
    dashFilter ex1 ({} : Params) = ex1 ∧
    p40.volume_increase_threshold = some 40 ∧ (0 : ℚ) < 40 ∧
    List.Sorted (fun a b : Row => a.date ≤ b.date) (dashFilter ex1 p40) :=
  ⟨C2_amended.1 ex1, rfl, by decide, C2_amended.2 ex1 p40 40 rfl (by decide)⟩

/-- The volume series 100, 150, 225 has day-over-day changes
NaN, 50%, 50%, so one pass at threshold 40 keeps the last two rows and
a second pass recomputes changes over the survivors and keeps only the
last: reapplication shrinks the result. -/
def ex3r3 : Row := ⟨3, 0, 0, 0, 0, 225⟩

def ex3 : List Row := [ex1r1, ex1r2, ex3r3]

/-- C3 fails on the code: applying the same criteria twice is not
idempotent when the volume-increase threshold is set, because the
second pass recomputes each change against the new previous surviving
row and always drops the first survivor again. -/
theorem C3_counterexample :
    dashFilter (dashFilter ex3 p40) p40 ≠ dashFilter ex3 p40 := by decide

/-- C3 amended: the filter is idempotent whenever the volume-increase
threshold is unset (absent or not positive); with a positive threshold
set, reapplying the same criteria can shrink the result, so the claim
fails there. -/
theorem C3_amended (df : List Row) (p : Params) (hp : thrUnset p) :
    dashFilter (dashFilter df p) p = dashFilter df p := by
  rw [dashFilter_of_thrUnset _ p hp, dashFilter_of_thrUnset _ p hp, rangeStages_idem]

/-- Witness for C3's amended theorem at concrete inputs. -/
theorem C3_amended_witness :
    thrUnset ({} : Params) ∧
    dashFilter (dashFilter ex3 ({} : Params)) ({} : Params) = dashFilter ex3 ({} : Params) :=
  ⟨trivial, C3_amended ex3 {} trivial⟩

/-- A series whose first (by date) row has volume 0 and whose second
has positive volume: pandas computes `50/0 = +inf` for the second
row's change. -/
def ex5r1 : Row := ⟨1, 0, 0, 0, 0, 0⟩

def ex5r2 : Row := ⟨2, 0, 0, 0, 0, 50⟩

def ex5 : List Row := [ex5r1, ex5r2]

/-- C5 fails on the code: a row whose predecessor has volume 0 gets
change `+inf`, and `inf >= threshold` holds, so the row IS retained
(here the whole result is that row, annotated with `+inf`). -/
theorem C5_counterexample :
    dashFilter ex5 p40 = [ex5r2] ∧
    thresholdStageAnnot ex5 40 = [(ex5r2, FVal.posInf)] := by decide

theorem mem_zip_pctChangesAux (p0 : ℚ) :
    ∀ (l1 : List Row) (a b : Row) (l2 : List Row),
    (b, pctOne a.volume b.volume) ∈
      (l1 ++ a :: b :: l2).zip (pctChangesAux p0 ((l1 ++ a :: b :: l2).map Row.volume))
  | [], a, b, l2 => by
    simp only [List.nil_append, List.map_cons, pctChangesAux, List.zip_cons_cons]
    exact List.mem_cons_of_mem _ (List.mem_cons_self _ _)
  | x :: l1, a, b, l2 => by
    simp only [List.cons_append, List.map_cons, pctChangesAux, List.zip_cons_cons]
    exact List.mem_cons_of_mem _ (mem_zip_pctChangesAux x.volume l1 a b l2)

theorem mem_zip_pctChanges :
    ∀ (l1 : List Row) (a b : Row) (l2 : List Row),
    (b, pctOne a.volume b.volume) ∈
      (l1 ++ a :: b :: l2).zip (pctChanges ((l1 ++ a :: b :: l2).map Row.volume))
  | [], a, b, l2 => by
    simp only [List.nil_append, List.map_cons, pctChanges, pctChangesAux,
      List.zip_cons_cons]
    exact List.mem_cons_of_mem _ (List.mem_cons_self _ _)
  | x :: l1, a, b, l2 => by
    simp only [List.cons_append, List.map_cons, pctChanges, List.zip_cons_cons]
    exact List.mem_cons_of_mem _ (mem_zip_pctChangesAux x.volume l1 a b l2)

/-- C5 amended: with the volume-increase threshold set, a surviving
row whose immediately preceding surviving row (in date order) has
volume 0 gets change `+inf` rather than an undefined one, and -- its
own volume being positive -- it IS retained by the threshold stage for
every positive threshold; no division-by-zero fault occurs (the
pipeline is total). -/
theorem C5_amended (df : List Row) (p : Params) (t : ℚ)
    (hthr : p.volume_increase_threshold = some t) (ht : 0 < t)
    (l1 l2 : List Row) (a b : Row)
    (hs : sortByDate (rangeStages df p) = l1 ++ a :: b :: l2)
    (h0 : a.volume = 0) (hpos : 0 < b.volume) :
    b ∈ dashFilter df p := by
  have hdf : dashFilter df p = thresholdStage (rangeStages df p) t := by
    simp [dashFilter, hthr, ht]
  rw [hdf]
  have hmem := mem_zip_pctChanges l1 a b l2
  rw [← hs] at hmem
  have hge : (pctOne a.volume b.volume).ge t = true := by
    rw [h0]
    simp [pctOne, hpos, FVal.ge]
  have hfil : (b, pctOne a.volume b.volume) ∈
      thresholdStageAnnot (rangeStages df p) t :=
    List.mem_filter.mpr ⟨hmem, hge⟩
  exact List.mem_map.mpr ⟨_, hfil, rfl⟩

/-- Witness for C5's amended theorem at the concrete zero-volume
series. -/
theorem C5_amended_witness :
    p40.volume_increase_threshold = some 40 ∧ (0 : ℚ) < 40 ∧
    sortByDate (rangeStages ex5 p40) = [] ++ ex5r1 :: ex5r2 :: [] ∧
    ex5r1.volume = 0 ∧ 0 < ex5r2.volume ∧
    ex5r2 ∈ dashFilter ex5 p40 :=
  ⟨rfl, by decide, by decide, rfl, by decide,
    C5_amended ex5 p40 40 rfl (by decide) [] [] ex5r1 ex5r2 (by decide) rfl (by decide)⟩

/-- A price range whose bounds are both negative, as in the spec's
scenario `priceRange=[min=-5,max=-1]`. -/
def pNeg : Params := { min_price := some (-5), max_price := some (-1) }

/-- C7 fails on the code in its order part: bounds that are absent or
not positive do filter nothing, but the result is the series in STORED
order, not the date-sorted series, so on an unsorted series the result
differs from the date-sorted one the claim promises. -/
theorem C7_counterexample :
    dashFilter exU pNeg = exU ∧ dashFilter exU pNeg ≠ sortByDate exU := by decide

theorem mem_rangeStages_pred (df : List Row) (p : Params) (r : Row)
    (hr : r ∈ rangeStages df p) : rangePred p r = true := by
  rw [rangeStages_eq] at hr
  exact (List.mem_filter.mp hr).2

/-- C7 amended: a volume/price bound is applied only when present and
positive -- with every bound unset by that policy the engine returns
the series unchanged in STORED order (date-sorted only if it was
stored sorted) -- and when a volume bound is set, every retained row
satisfies it. -/
theorem C7_amended :
    (∀ (df : List Row) (p : Params),
      p.start_date = none → p.end_date = none →
      qUnset p.min_volume → qUnset p.max_volume →
      qUnset p.min_price → qUnset p.max_price →
      thrUnset p →
      dashFilter df p = df) ∧
    (∀ (df : List Row) (p : Params) (lo : ℚ),
      p.min_volume = some lo → 0 < lo →
      ∀ r ∈ dashFilter df p, lo ≤ r.volume) ∧
    (∀ (df : List Row) (p : Params) (hi : ℚ),
      p.max_volume = some hi → 0 < hi →
      ∀ r ∈ dashFilter df p, r.volume ≤ hi) := by
  refine ⟨?_, ?_, ?_⟩
  · intro df p hsd hed hminv hmaxv hminp hmaxp hthr
    rw [dashFilter_of_thrUnset df p hthr, rangeStages_eq]
    apply List.filter_eq_self.mpr
    intro r hr
    unfold rangePred
    rw [hsd, hed, condQB_unset _ _ hminv, condQB_unset _ _ hmaxv,
      condQB_unset _ _ hminp, condQB_unset _ _ hmaxp]
    rfl
  · intro df p lo hmin hlo r hr
    have hp := mem_rangeStages_pred df p r (dashFilter_subset_range df p r hr)
    unfold rangePred at hp
    rw [hmin] at hp
    simp only [Bool.and_eq_true] at hp
    obtain ⟨h6, h5, h4, h3, h2, h1⟩ := hp
    simp [condQB, hlo] at h3
    exact h3
  · intro df p hi hmax hhi r hr
    have hp := mem_rangeStages_pred df p r (dashFilter_subset_range df p r hr)
    unfold rangePred at hp
    rw [hmax] at hp
    simp only [Bool.and_eq_true] at hp
    obtain ⟨h6, h5, h4, h3, h2, h1⟩ := hp
    simp [condQB, hhi] at h4
    exact h4

/-- A row and criteria exercising a set volume range. -/
def exVr : Row := ⟨1, 0, 0, 0, 0, 5⟩

def pVol : Params := { min_volume := some 3, max_volume := some 9 }

/-- Witness for C7's amended theorem: the negative price range filters
nothing, and with volume range `[3, 9]` a retained row's volume obeys
both bounds. -/
theorem C7_amended_witness :
    ({ min_price := some (-5), max_price := some (-1) } : Params).start_date = none ∧
    qUnset (some (-5 : ℚ)) ∧ qUnset (some (-1 : ℚ)) ∧
    dashFilter exU pNeg = exU ∧
    pVol.min_volume = some 3 ∧ (0 : ℚ) < 3 ∧ exVr ∈ dashFilter [exVr] pVol ∧
    (3 : ℚ) ≤ exVr.volume ∧ exVr.volume ≤ 9 :=
  ⟨rfl, show (-5 : ℚ) ≤ 0 by decide, show (-1 : ℚ) ≤ 0 by decide,
    C7_amended.1 exU pNeg rfl rfl trivial trivial
      (show (-5 : ℚ) ≤ 0 by decide) (show (-1 : ℚ) ≤ 0 by decide) trivial,
    rfl, by decide, by decide,
    C7_amended.2.1 [exVr] pVol 3 rfl (by decide) exVr (by decide),
    C7_amended.2.2 [exVr] pVol 9 rfl (by decide) exVr (by decide)⟩

/-- Ticker symbols and parameter strings used in concrete requests. -/
def tickFOO : String := "FOO"

def tickSPY : String := "SPY"

def strHundred : String := "100"

def strGarbage : String := "garbage"

def strAbc : String := "abc"

/-- A store holding one known series (symbol `AAPL`, one row with
volume 10). -/
def exStoreRow : Row := ⟨1, 0, 0, 0, 0, 10⟩

def store1 : List (String × List Row) := [(defaultTicker, [exStoreRow])]

/-- A request for the unknown symbol `FOO`. -/
def reqUnknown : RawReq := { ticker := some tickFOO }

/-- A request for the known symbol whose volume filter removes every
row (min volume 100 against a volume-10 row). -/
def reqEmpty : RawReq := { ticker := some defaultTicker, min_volume := some strHundred }

/-- C4 fails on the code: an unknown-ticker request and a known-ticker
request with zero surviving rows produce IDENTICAL API responses --
the same empty payload with the same default 200 status -- so no
status/code side channel distinguishes them. -/
theorem C4_counterexample :
    apiOutcome store1 reqUnknown = Except.ok Outcome.unknownTicker ∧
    apiOutcome store1 reqEmpty = Except.ok Outcome.emptyResult ∧
    api_route store1 reqUnknown = api_route store1 reqEmpty :=
  ⟨rfl, rfl, rfl⟩

/-- C4 amended: `UnknownTicker` and `EmptyResult` are NOT
distinguishable by the caller at the JSON API boundary: every request
classified as either outcome gets the very same response, HTTP 200
with the empty object payload; the route sets no status or code side
channel. -/
theorem C4_amended (store : List (String × List Row)) (req : RawReq)
    (h : apiOutcome store req = Except.ok Outcome.unknownTicker ∨
         apiOutcome store req = Except.ok Outcome.emptyResult) :
    api_route store req = Except.ok (200, ApiPayload.emptyObj) := by
  simp only [api_route, apiOutcome] at h ⊢
  cases hl : lookupStore store (req.ticker.getD defaultTicker) with
  | none => rfl
  | some df0 =>
    rw [hl] at h
    dsimp only at h ⊢
    cases hsd : parseDateParam req.start_date with
    | error e =>
      rw [hsd] at h
      simp at h
    | ok sd =>
      rw [hsd] at h
      dsimp only at h ⊢
      cases hed : parseDateParam req.end_date with
      | error e =>
        rw [hed] at h
        simp at h
      | ok ed =>
        rw [hed] at h
        dsimp only at h ⊢
        by_cases he : apiFilter df0 (reqParams req sd ed) = []
        · simp [he]
        · rcases h with h | h <;> simp [he] at h

/-- Witness for C4's amended theorem at the two concrete requests. -/
theorem C4_amended_witness :
    (apiOutcome store1 reqUnknown = Except.ok Outcome.unknownTicker ∨
      apiOutcome store1 reqUnknown = Except.ok Outcome.emptyResult) ∧
    api_route store1 reqUnknown = Except.ok (200, ApiPayload.emptyObj) :=
  ⟨Or.inl rfl, C4_amended store1 reqUnknown (Or.inl rfl)⟩

/-- A known-ticker request whose `start_date` is an unparseable
string. -/
def reqBadDate : RawReq := { ticker := some defaultTicker, start_date := some strGarbage }

/-- C6 fails on the code for date parameters: `pd.to_datetime` is
called on any non-empty date string with no recovery, so an invalid
date string escalates to an uncaught exception and the request fails
instead of treating the parameter as unset. -/
theorem C6_counterexample :
    dashboard_route store1 reqBadDate = Except.error () := rfl

/-- A date parameter that does not make the route raise: absent,
empty (falsy), or parseable. -/
def dateOk (o : Option String) : Prop :=
  match o with
  | none => True
  | some s => s = "" ∨ (to_datetime s).isSome = true

theorem parseDateParam_ok (o : Option String) (h : dateOk o) :
    ∃ d, parseDateParam o = Except.ok d := by
  cases o with
  | none => exact ⟨none, rfl⟩
  | some s =>
    unfold dateOk at h
    by_cases hs : s = ""
    · exact ⟨none, by simp [parseDateParam, hs]⟩
    · rcases h with h | h
      · exact absurd h hs
      · cases ht : to_datetime s with
        | none =>
          rw [ht] at h
          simp at h
        | some d => exact ⟨some d, by simp [parseDateParam, hs, ht]⟩

/-- The request with its `min_volume` parameter dropped. -/
def noMinVol (req : RawReq) : RawReq := { req with min_volume := none }

/-- C6 amended: a numeric parameter (volume/price/threshold bound)
that fails to parse is treated as unset by Flask's `type=float`
recovery and the request succeeds; but a NON-EMPTY date string that
fails to parse makes `pd.to_datetime` raise and the request fail, so
only the numeric parameters are recovered.  Stated here: whenever both
date strings are absent, empty or parseable, the request succeeds, and
an unparseable `min_volume` behaves exactly as an absent one. -/
theorem C6_amended (store : List (String × List Row)) (req : RawReq)
    (hsd : dateOk req.start_date) (hed : dateOk req.end_date) :
    isOkE (dashboard_route store req) = true ∧
    (∀ s : String, req.min_volume = some s → parseFloat s = none →
      dashboard_route store req = dashboard_route store (noMinVol req)) := by
  obtain ⟨sd, h1⟩ := parseDateParam_ok req.start_date hsd
  obtain ⟨ed, h2⟩ := parseDateParam_ok req.end_date hed
  constructor
  · simp only [dashboard_route]
    cases hl : lookupStore store (req.ticker.getD defaultTicker) with
    | none => rfl
    | some df0 =>
      rw [h1, h2]
      rfl
  · intro s hmv hpf
    have hproj1 : (noMinVol req).ticker = req.ticker := rfl
    have hproj2 : (noMinVol req).start_date = req.start_date := rfl
    have hproj3 : (noMinVol req).end_date = req.end_date := rfl
    have hparams : ∀ (a b : Option Int),
        reqParams (noMinVol req) a b = reqParams req a b := by
      intro a b
      simp [reqParams, noMinVol, getFloat, hmv, hpf]
    simp only [dashboard_route, hproj1, hproj2, hproj3]
    cases hl : lookupStore store (req.ticker.getD defaultTicker) with
    | none => rfl
    | some df0 =>
      rw [h1, h2]
      dsimp only
      rw [hparams]

/-- A request whose `min_volume` is the non-numeric string `abc`. -/
def reqNum : RawReq := { ticker := some defaultTicker, min_volume := some strAbc }

/-- Witness for C6's amended theorem at a concrete malformed numeric
parameter. -/
theorem C6_amended_witness :
    dateOk reqNum.start_date ∧ dateOk reqNum.end_date ∧
    isOkE (dashboard_route store1 reqNum) = true ∧
    reqNum.min_volume = some strAbc ∧ parseFloat strAbc = none ∧
    dashboard_route store1 reqNum = dashboard_route store1 (noMinVol reqNum) :=
  ⟨trivial, trivial, (C6_amended store1 reqNum trivial trivial).1, rfl, rfl,
    (C6_amended store1 reqNum trivial trivial).2 strAbc rfl rfl⟩

/-- A second known series (symbol `SPY`) with its own row. -/
def rowSPY : Row := ⟨5, 0, 0, 0, 0, 77⟩

def store2 : List (String × List Row) := [(defaultTicker, [exStoreRow]), (tickSPY, [rowSPY])]

/-- A request with no ticker parameter at all. -/
def reqNoTicker : RawReq := {}

/-- C8 fails on the code: with no ticker supplied the routes fall back
to the single fixed symbol `AAPL` (`request.args.get('ticker',
'AAPL')`), not to all known symbols -- the other loaded series
contributes nothing to the output. -/
theorem C8_counterexample :
    api_route store2 reqNoTicker = Except.ok (200, ApiPayload.records [exStoreRow]) ∧
    rowSPY ∉ [exStoreRow] :=
  ⟨rfl, by decide⟩

/-- The request with its ticker forced to the fixed default `AAPL`. -/
def withAAPL (req : RawReq) : RawReq := { req with ticker := some defaultTicker }

/-- C8 amended: a request with no ticker selection is handled exactly
as a request for the single fixed symbol `AAPL` -- not as a request
for all known symbols -- on both routes. -/
theorem C8_amended (store : List (String × List Row)) (req : RawReq)
    (h : req.ticker = none) :
    dashboard_route store req = dashboard_route store (withAAPL req) ∧
    api_route store req = api_route store (withAAPL req) := by
  obtain ⟨tk, sd, ed, mv, xv, mp, xp, th⟩ := req
  dsimp only at h
  subst h
  exact ⟨rfl, rfl⟩

/-- Witness for C8's amended theorem at the concrete two-series
store. -/
theorem C8_amended_witness :
    reqNoTicker.ticker = none ∧
    api_route store2 reqNoTicker = api_route store2 (withAAPL reqNoTicker) :=
  ⟨rfl, (C8_amended store2 reqNoTicker rfl).2⟩

/-- C10: the two inline copies of the filter pipeline are equivalent
-- the pipeline functions agree on every input, and for every store
and every request the filtered row set the dashboard route computes
equals the one the JSON API route computes. -/
theorem C10_routes_agree :
    (∀ (df : List Row) (p : Params), apiFilter df p = dashFilter df p) ∧
    (∀ (store : List (String × List Row)) (req : RawReq),
      apiRowSet (api_route store req) = dashRowSet (dashboard_route store req)) := by
  constructor
  · intro df p
    rfl
  · intro store req
    simp only [api_route, dashboard_route]
    cases hl : lookupStore store (req.ticker.getD defaultTicker) with
    | none => rfl
    | some df0 =>
      dsimp only
      cases hsd : parseDateParam req.start_date with
      | error e => rfl
      | ok sd =>
        dsimp only
        cases hed : parseDateParam req.end_date with
        | error e => rfl
        | ok ed =>
          dsimp only
          by_cases he : (apiFilter df0 (reqParams req sd ed)).isEmpty
          · have he2 : (dashFilter df0 (reqParams req sd ed)).isEmpty := he
            simp [he, he2, apiRowSet, dashRowSet]
          · have he2 : ¬ (dashFilter df0 (reqParams req sd ed)).isEmpty := he
            simp only [he, he2, if_false, ite_false, apiRowSet, dashRowSet]
            rfl

/-- A DataFrame object on the heap: its rows plus the optional derived
`Volume_Change_Pct` column (kept parallel to the rows). -/
structure Frame where
  rows : List Row
  volCol : Option (List FVal)
  deriving DecidableEq

/-- The heap of live DataFrame objects; an index is an object
reference. -/
abbrev Heap := List Frame

def emptyFrame : Frame := ⟨[], none⟩

/-- Allocation of a fresh frame: every pandas operation of the routes
except the column assignment returns a new object. -/
def allocF (h : Heap) (f : Frame) : Heap × Nat := (h ++ [f], h.length)

/-- `df = df[mask]` on frame `i`: allocates the filtered copy. -/
def maskRows (h : Heap) (i : Nat) (pred : Row → Bool) : Heap × Nat :=
  allocF h ⟨(h.getD i emptyFrame).rows.filter pred, none⟩

/-- `df = df.sort_values('Date')` on frame `i`: allocates the sorted
copy. -/
def sortOp (h : Heap) (i : Nat) : Heap × Nat :=
  allocF h ⟨sortByDate (h.getD i emptyFrame).rows, none⟩

/-- `df['Volume_Change_Pct'] = df['Volume'].pct_change() * 100`: the
single in-place mutation in the routes -- it writes the derived column
into frame `i` itself (this is what `.copy()` on line 41/204 guards
the stored frames against). -/
def setVolCol (h : Heap) (i : Nat) : Heap :=
  let f := h.getD i emptyFrame
  h.set i ⟨f.rows, some (pctChanges (f.rows.map Row.volume))⟩

/-- `df = df[df['Volume_Change_Pct'] >= t]`: allocates the filtered
copy with rows and column staying aligned. -/
def thrMask (h : Heap) (i : Nat) (t : ℚ) : Heap × Nat :=
  let f := h.getD i emptyFrame
  let kept := (f.rows.zip (f.volCol.getD [])).filter (fun rc => rc.2.ge t)
  allocF h ⟨kept.map Prod.fst, some (kept.map (fun rc => rc.2))⟩

/-- One optional date-bound mask stage. -/
def condMaskDate (s : Heap × Nat) (o : Option Int) (pred : Int → Row → Bool) : Heap × Nat :=
  match o with
  | some d => maskRows s.1 s.2 (pred d)
  | none => s

/-- One optional volume/price-bound mask stage (present-and-positive
policy). -/
def condMaskQ (s : Heap × Nat) (o : Option ℚ) (pred : ℚ → Row → Bool) : Heap × Nat :=
  match o with
  | some v => if 0 < v then maskRows s.1 s.2 (pred v) else s
  | none => s

/-- The optional volume-increase stage: sort (alloc), assign the
column (in place), mask (alloc). -/
def condThr (s : Heap × Nat) (o : Option ℚ) : Heap × Nat :=
  match o with
  | some t =>
    if 0 < t then
      let s1 := sortOp s.1 s.2
      thrMask (setVolCol s1.1 s1.2) s1.2 t
    else s
  | none => s

/-- Heap-level model of the `dashboard` route's filtering block
(`src/app.py` lines 40-73), with DataFrames as heap objects: the store
maps each ticker symbol to the stored frame's index,
`data[selected_ticker].copy()` allocates a copy, masks and
`sort_values` allocate, and the column assignment mutates in place.
Returns the final heap and the frame index of `filtered_data` (`none`
when the ticker is unknown).  The `api_data` route performs the
identical sequence of frame operations (its pipeline is the verbatim
copy proved equivalent in `C10_routes_agree`). -/
def dashboard_heap (h : Heap) (store : List (String × Nat)) (tick : String)
    (p : Params) : Heap × Option Nat :=
  match (store.find? (fun e => e.1 == tick)).map (fun e => e.2) with
  | none => (h, none)
  | some i0 =>
    let s := allocF h (h.getD i0 emptyFrame)
    let s := condMaskDate s p.start_date (fun d r => decide (d ≤ r.date))
    let s := condMaskDate s p.end_date (fun d r => decide (r.date ≤ d))
    let s := condMaskQ s p.min_volume (fun v r => decide (v ≤ r.volume))
    let s := condMaskQ s p.max_volume (fun v r => decide (r.volume ≤ v))
    let s := condMaskQ s p.min_price (fun v r => decide (v ≤ r.close))
    let s := condMaskQ s p.max_price (fun v r => decide (r.close ≤ v))
    let s := condThr s p.volume_increase_threshold
    (s.1, some s.2)

/-- Frame-effect invariant of the request-local state: the heap has
only grown, the working frame is a fresh index, and every index that
existed before the request still holds its original frame. -/
def HInv (h0 : Heap) (s : Heap × Nat) : Prop :=
  h0.length ≤ s.1.length ∧ h0.length ≤ s.2 ∧
  ∀ j, j < h0.length → s.1[j]? = h0[j]?

theorem allocF_HInv (h0 h : Heap) (f : Frame)
    (hlen : h0.length ≤ h.length)
    (hpre : ∀ j, j < h0.length → h[j]? = h0[j]?) :
    HInv h0 (allocF h f) := by
  refine ⟨?_, hlen, ?_⟩
  · simp only [allocF, List.length_append, List.length_cons, List.length_nil]
    omega
  · intro j hj
    have hj2 : j < h.length := lt_of_lt_of_le hj hlen
    show (h ++ [f])[j]? = h0[j]?
    rw [List.getElem?_append, if_pos hj2]
    exact hpre j hj

theorem maskRows_HInv (h0 : Heap) (s : Heap × Nat) (hs : HInv h0 s)
    (pred : Row → Bool) : HInv h0 (maskRows s.1 s.2 pred) :=
  allocF_HInv h0 s.1 _ hs.1 hs.2.2

theorem sortOp_HInv (h0 : Heap) (s : Heap × Nat) (hs : HInv h0 s) :
    HInv h0 (sortOp s.1 s.2) :=
  allocF_HInv h0 s.1 _ hs.1 hs.2.2

theorem setVolCol_pre (h0 h : Heap) (i : Nat)
    (hlen : h0.length ≤ h.length) (hi : h0.length ≤ i)
    (hpre : ∀ j, j < h0.length → h[j]? = h0[j]?) :
    h0.length ≤ (setVolCol h i).length ∧
    ∀ j, j < h0.length → (setVolCol h i)[j]? = h0[j]? := by
  constructor
  · simp only [setVolCol, List.length_set]
    exact hlen
  · intro j hj
    have hne : i ≠ j := by omega
    show (h.set i _)[j]? = h0[j]?
    rw [List.getElem?_set_ne hne]
    exact hpre j hj

theorem condMaskDate_HInv (h0 : Heap) (s : Heap × Nat) (hs : HInv h0 s)
    (o : Option Int) (pred : Int → Row → Bool) :
    HInv h0 (condMaskDate s o pred) := by
  cases o with
  | none => exact hs
  | some d => exact maskRows_HInv h0 s hs (pred d)

theorem condMaskQ_HInv (h0 : Heap) (s : Heap × Nat) (hs : HInv h0 s)
    (o : Option ℚ) (pred : ℚ → Row → Bool) :
    HInv h0 (condMaskQ s o pred) := by
  cases o with
  | none => exact hs
  | some v =>
    unfold condMaskQ
    dsimp only
    by_cases hv : 0 < v
    · rw [if_pos hv]
      exact maskRows_HInv h0 s hs (pred v)
    · rw [if_neg hv]
      exact hs

theorem condThr_HInv (h0 : Heap) (s : Heap × Nat) (hs : HInv h0 s)
    (o : Option ℚ) : HInv h0 (condThr s o) := by
  cases o with
  | none => exact hs
  | some t =>
    unfold condThr
    dsimp only
    by_cases ht : 0 < t
    · rw [if_pos ht]
      have h1 := sortOp_HInv h0 s hs
      have h2 := setVolCol_pre h0 (sortOp s.1 s.2).1 (sortOp s.1 s.2).2
        h1.1 h1.2.1 h1.2.2
      exact allocF_HInv h0 _ _ h2.1 h2.2
    · rw [if_neg ht]
      exact hs

/-- C9: applying the filter never mutates the stored series -- after
the route runs, every frame that existed in the heap before the
request (in particular every frame the Series Store references) is
unchanged, because the route works on the `.copy()` and every later
operation either allocates a fresh frame or writes the derived column
into a fresh one. -/
theorem C9_store_not_mutated (h : Heap) (store : List (String × Nat))
    (tick : String) (p : Params) :
    ∀ j, j < h.length → ((dashboard_heap h store tick p).1)[j]? = h[j]? := by
  intro j hj
  unfold dashboard_heap
  cases hm : (store.find? (fun e => e.1 == tick)).map (fun e => e.2) with
  | none => rfl
  | some i0 =>
    dsimp only
    have inv0 : HInv h (allocF h (h.getD i0 emptyFrame)) :=
      allocF_HInv h h _ le_rfl (fun _ _ => rfl)
    have inv1 := condMaskDate_HInv h _ inv0 p.start_date
      (fun d r => decide (d ≤ r.date))
    have inv2 := condMaskDate_HInv h _ inv1 p.end_date
      (fun d r => decide (r.date ≤ d))
    have inv3 := condMaskQ_HInv h _ inv2 p.min_volume
      (fun v r => decide (v ≤ r.volume))
    have inv4 := condMaskQ_HInv h _ inv3 p.max_volume
      (fun v r => decide (r.volume ≤ v))
    have inv5 := condMaskQ_HInv h _ inv4 p.min_price
      (fun v r => decide (v ≤ r.close))
    have inv6 := condMaskQ_HInv h _ inv5 p.max_price
      (fun v r => decide (r.close ≤ v))
    have inv7 := condThr_HInv h _ inv6 p.volume_increase_threshold
    exact inv7.2.2 j hj

/-- Witness for C9 at a concrete one-frame heap and set threshold (the
path that performs the in-place column write). -/
def heap1 : Heap := [⟨[exStoreRow], none⟩]

def storeH1 : List (String × Nat) := [(defaultTicker, 0)]

theorem C9_store_not_mutated_witness :
    0 < heap1.length ∧
    ((dashboard_heap heap1 storeH1 defaultTicker p40).1)[0]? = heap1[0]? :=
  ⟨by decide, C9_store_not_mutated heap1 storeH1 defaultTicker p40 0 (by decide)⟩
